import Mathlib

/-!
Verification of the DCF valuation pipeline (dcf.py and funcLibrary/) against its
specification.  Numeric values are modelled as exact rationals; the numpy
missing-value sentinel NaN is modelled as `none` in `Option ℚ`.  Python
functions that return `None` on invalid input are modelled with `Option`;
`extend_array` is modelled with a three-state result so that an uncaught
Python exception (ZeroDivisionError, IndexError) is distinguishable from a
`None` return.
-/

set_option maxRecDepth 200000

/-- A numpy float value: `none` is the missing-value sentinel NaN,
`some q` is an ordinary (finite) number. -/
abbrev QV := Option ℚ

/-- Elementwise numpy addition on possibly-NaN values: NaN propagates. -/
def qadd : QV → QV → QV
  | some a, some b => some (a + b)
  | _, _ => none

/-- Elementwise numpy subtraction on possibly-NaN values: NaN propagates. -/
def qsub : QV → QV → QV
  | some a, some b => some (a - b)
  | _, _ => none

/-- Elementwise numpy multiplication on possibly-NaN values: NaN propagates. -/
def qmul : QV → QV → QV
  | some a, some b => some (a * b)
  | _, _ => none

/-- Elementwise division as performed by array_arithmetic_v2:
`np.divide(a, b, out=np.full_like(a, np.nan), where=(b != 0))`.
A zero denominator yields the NaN sentinel; a NaN operand propagates
(for a NaN denominator the `where` mask is true and `a / NaN = NaN`). -/
def qdiv : QV → QV → QV
  | some a, some b => if b = 0 then none else some (a / b)
  | _, _ => none

/-- Python `min(x, c)` where the first argument may be NaN: `min(nan, c)`
returns `nan` because the comparison `c < nan` is false. -/
def qmin : QV → ℚ → QV
  | some a, c => some (min a c)
  | none, _ => none

/-- Python `max(x, c)` where the first argument may be NaN: `max(nan, c)`
returns `nan` because the comparison `c > nan` is false. -/
def qmax : QV → ℚ → QV
  | some a, c => some (max a c)
  | none, _ => none

/-- Model of `np.nanmean`: the mean of the non-NaN entries; NaN when there
is no non-NaN entry (numpy warns and returns nan for an empty slice). -/
def nanmean (l : List QV) : QV :=
  let vs := l.filterMap id
  if vs.length = 0 then none else some (vs.sum / (vs.length : ℚ))

/-- Model of numpy `arr.sum()` (a plain sum, not nansum): one NaN entry
poisons the whole sum; the empty sum is 0. -/
def listSum (l : List QV) : QV := l.foldl qadd (some 0)

/-- Running products used by `np.cumprod`: `acc` is the product accumulated
so far.  A NaN entry poisons every later partial product. -/
def cumprodAux (acc : QV) : List QV → List QV
  | [] => []
  | x :: xs => qmul acc x :: cumprodAux (qmul acc x) xs

/-- Model of `np.cumprod`. -/
def np_cumprod (l : List QV) : List QV := cumprodAux (some 1) l

/-- Model of `np.allclose(a, b, rtol=1e-5, atol=1e-5)` for the 1-D arrays the
checker compares: every pair must satisfy `|a - b| <= atol + rtol * |b|`, and
a NaN on either side makes the comparison false (equal_nan defaults to False).
The checker only ever compares equal-length arrays; a length mismatch is
modelled as false. -/
def np_allclose (a b : List QV) : Bool :=
  (a.length == b.length) &&
    (List.zip a b).all fun pr =>
      match pr.1, pr.2 with
      | some x, some y => decide (|x - y| ≤ 1 / 100000 + (1 / 100000) * |y|)
      | _, _ => false

/-- Model of `pandas.Series.pct_change(periods=1)` as used on the sales
column: position 0 is NaN and position i is `a[i] / a[i-1] - 1`.  A NaN
operand propagates; a zero previous value (which pandas maps to an infinity,
a non-finite value like NaN) is collapsed to the missing-value sentinel. -/
def pct_change (a : List QV) : List QV :=
  match a with
  | [] => []
  | _ =>
    none :: List.zipWith
      (fun cur prev =>
        match cur, prev with
        | some c, some p => if p = 0 then none else some (c / p - 1)
        | _, _ => none)
      a.tail a

/-- The synonym table of array_arithmetic_v2 for addition. -/
def ADD_LIST : List String := ["add", "addition", "sum", "plus", "+"]

/-- The synonym table of array_arithmetic_v2 for subtraction. -/
def SUB_LIST : List String := ["subtract", "sub", "minus", "-"]

/-- The synonym table of array_arithmetic_v2 for multiplication. -/
def MULT_LIST : List String := ["multiply", "times", "*"]

/-- The synonym table of array_arithmetic_v2 for division. -/
def DIV_LIST : List String := ["divide", "div", "/"]

/-- The full operation table (the source builds the union of the four
synonym lists; list membership is equivalent to membership in that set). -/
def OP_SET : List String := ADD_LIST ++ SUB_LIST ++ MULT_LIST ++ DIV_LIST

/-- Model of Python str.lower(): lower-case every character.  This is the
same function as String.toLower, stated directly on the character data. -/
def py_lower (s : String) : String := ⟨s.data.map Char.toLower⟩

/-- Model of `array_arithmetic` from funcLibrary/array_arithmetic_v2.py.
The `Option` on the operands models a Python `None` argument.  The source
checks, in order: falsy (empty) operation string, null operands, shape
mismatch, unknown operation, then the dispatch chain; every failing check
returns `None`, so matching the null operands first (as written here) gives
the same result on every input.  The isinstance checks of the source are
type-level and need no model here. -/
def array_arithmetic (arr1 arr2 : Option (List QV)) (operation : String) :
    Option (List QV) :=
  match arr1, arr2 with
  | some a1, some a2 =>
    if operation = "" then none
    else if a1.length ≠ a2.length then none
    else if py_lower operation ∉ OP_SET then none
    else if py_lower operation ∈ ADD_LIST then some (List.zipWith qadd a1 a2)
    else if py_lower operation ∈ SUB_LIST then some (List.zipWith qsub a1 a2)
    else if py_lower operation ∈ MULT_LIST then some (List.zipWith qmul a1 a2)
    else if py_lower operation ∈ DIV_LIST then some (List.zipWith qdiv a1 a2)
    else none
  | _, _ => none

/-- Result of a Python call that can return a value, return `None`, or raise
an uncaught exception. -/
inductive PyRes (α : Type) where
  | fail : PyRes α
  | raised : PyRes α
  | ok : α → PyRes α
deriving DecidableEq

/-- Forget the distinction between a `None` return and an uncaught
exception (both abort the orchestrator run). -/
def PyRes.toOption {α : Type} : PyRes α → Option α
  | .ok a => some a
  | _ => none

/-- Model of `extend_array` from funcLibrary/extend_array_function.py.
The optional START_VALUE and END_VALUE are `Option QV`: the outer layer is
presence of the argument, the inner layer allows a supplied NaN (the caller
passes `float(np.nanmean(...))`, which can be NaN).  When both start and end
values are supplied the source computes `STEP = (END_VALUE - START_VALUE) /
forecast_periods` with Python float division, which raises ZeroDivisionError
when `forecast_periods = 0` (modelled as `.raised`); `arr[-1]` on an empty
array raises IndexError (also `.raised`).  The appended segment is
`base_value + steps * STEP` with `steps = [1, ..., forecast_periods]`. -/
def extend_array (arr : List QV) (forecast_periods : ℤ)
    (method : Option String) (STEP : Option ℚ)
    (START_VALUE END_VALUE : Option QV) : PyRes (List QV) :=
  if method ≠ none ∧ method ≠ some "average" ∧ method ≠ some "last" then .fail
  else if forecast_periods < 0 then .fail
  else
    match START_VALUE, END_VALUE with
    | some s, some e =>
      if forecast_periods = 0 then .raised
      else
        let step : QV := qmul (qsub e s) (some (1 / (forecast_periods : ℚ)))
        .ok (arr ++ (List.range forecast_periods.toNat).map
          (fun (k : ℕ) => qadd s (qmul (some ((k : ℚ) + 1)) step)))
    | _, _ =>
      let step : ℚ := STEP.getD 0
      if method = some "average" then
        .ok (arr ++ (List.range forecast_periods.toNat).map
          (fun (k : ℕ) => qadd (nanmean arr) (some (((k : ℚ) + 1) * step))))
      else
        match arr.getLast? with
        | none => .raised
        | some lastv =>
          .ok (arr ++ (List.range forecast_periods.toNat).map
            (fun (k : ℕ) => qadd lastv (some (((k : ℚ) + 1) * step))))

/-- Model of `apply_growth` from funcLibrary/apply_growth.py: an empty
growth-rate array yields `None`; otherwise the initial value is prefixed to
`initial_value * np.cumprod(1 + growth_rates)`.  The isinstance checks of
the source are type-level and need no model here. -/
def apply_growth (initial_value : QV) (growth_rates : List QV) :
    Option (List QV) :=
  if growth_rates = [] then none
  else
    some (initial_value ::
      (np_cumprod (growth_rates.map (fun r => qadd (some 1) r))).map
        (fun m => qmul initial_value m))

/-- Model of `delta_numpy` from funcLibrary/delta_numpy.py: `None` on an
empty array; otherwise position 0 is NaN when `first_value` is absent and
0.0 when any `first_value` is supplied (the supplied value itself is never
used), and position i is `array[i] - array[i-1]`.  The non-1-D and
non-numeric failures of the source are type-level and need no model here. -/
def delta_numpy (array : List QV) (first_value : Option ℚ) :
    Option (List QV) :=
  if array = [] then none
  else
    some ((match first_value with
            | none => (none : QV)
            | some _ => some 0) :: List.zipWith qsub array.tail array)

/-- The three trade decisions emitted by dcf.py STEP 12. -/
inductive Decision where
  | SELL : Decision
  | BUY : Decision
  | HOLD : Decision
deriving DecidableEq

/-- Model of `is_sell` in dcf.py STEP 12. -/
def is_sell (share_value price threshold : ℚ) : Bool :=
  decide (share_value < (1 - threshold) * price)

/-- Model of `is_buy` in dcf.py STEP 12. -/
def is_buy (share_value price threshold : ℚ) : Bool :=
  decide (share_value < (1 + threshold) * price)

/-- The decision control flow of dcf.py STEP 12: `is_sell` is tested first
and exits, then `is_buy`, with HOLD the fall-through. -/
def dcf_decision (share_value price threshold : ℚ) : Decision :=
  if is_sell share_value price threshold then .SELL
  else if is_buy share_value price threshold then .BUY
  else .HOLD

/-- The historical input columns of dcf.py after extraction (STEP 3): one
list per financial-statement line over the historical window.  The two
columns that the source divides by 100 right after extraction
(EFF_TAX_RATE and CAP_EXPEND_TO_SALES) are stored raw here and the division
is part of the corresponding derived definitions. -/
structure DcfInputs where
  sales : List QV
  cogs : List QV
  gp : List QV
  other_oper_inc : List QV
  other_oper_exp : List QV
  sga_exp : List QV
  rd_exp : List QV
  oper_exp : List QV
  oper_inc : List QV
  pretax_inc : List QV
  tax_exp : List QV
  eff_tax_rate_raw : List QV
  capex_to_sales_raw : List QV
  ebitda : List QV
  ebita : List QV
  depreciation : List QV
  total_current_assets : List QV
  total_current_liabilities : List QV

/-- The configuration constants of dcf.py, made explicit parameters. -/
structure DcfParams where
  n_historical : ℕ
  n_forecast : ℕ
  terminal_growth_rate : ℚ
  terminal_cogs_margin_rate : ℚ
  terminal_sga_margin_rate : ℚ
  terminal_rd_margin_rate : ℚ
  terminal_depr_to_capex_rate : ℚ
  wacc : ℚ

/-- dcf.py STEP 2: the sales_growth column, `pct_change(periods=1)` of the
sales column. -/
def sales_growth_arr (inp : DcfInputs) : List QV := pct_change inp.sales

/-- dcf.py line 209: the reported effective tax rate column divided
by 100. -/
def effective_tax_rate_arr (inp : DcfInputs) : List QV :=
  inp.eff_tax_rate_raw.map (fun x => x.map (fun v => v / 100))

/-- dcf.py line 224: amortization = EBITA - operating income (reported). -/
def amortization_arr (inp : DcfInputs) : Option (List QV) :=
  array_arithmetic (some inp.ebita) (some inp.oper_inc) "subtract"

/-- dcf.py line 234: working capital = current assets - current
liabilities. -/
def working_capital_arr (inp : DcfInputs) : Option (List QV) :=
  array_arithmetic (some inp.total_current_assets)
    (some inp.total_current_liabilities) "subtract"

/-- dcf.py STEP 4: recomputed gross profit = sales - COGS. -/
def calculated_gross_profit_arr (inp : DcfInputs) : Option (List QV) :=
  array_arithmetic (some inp.sales) (some inp.cogs) "subtract"

/-- dcf.py STEP 4: gross-profit reconciliation check. -/
def check_gross_margin_arr (inp : DcfInputs) : Option Bool :=
  (calculated_gross_profit_arr inp).map (fun c => np_allclose inp.gp c)

/-- dcf.py STEP 4: recomputed operating expense = SG&A + R&D + other
operating expense. -/
def calculated_oper_exp_arr (inp : DcfInputs) : Option (List QV) :=
  array_arithmetic
    (array_arithmetic (some inp.sga_exp) (some inp.rd_exp) "add")
    (some inp.other_oper_exp) "add"

/-- dcf.py STEP 4: operating-expense reconciliation check. -/
def check_oper_exp_arr (inp : DcfInputs) : Option Bool :=
  (calculated_oper_exp_arr inp).map (fun c => np_allclose inp.oper_exp c)

/-- dcf.py STEP 4: recomputed operating income = gross profit + (other
operating income - operating expense), from the reported columns. -/
def calculated_oper_inc_arr (inp : DcfInputs) : Option (List QV) :=
  array_arithmetic (some inp.gp)
    (array_arithmetic (some inp.other_oper_inc) (some inp.oper_exp)
      "subtract") "add"

/-- dcf.py STEP 4: operating-income reconciliation check. -/
def check_oper_inc_arr (inp : DcfInputs) : Option Bool :=
  (calculated_oper_inc_arr inp).map (fun c => np_allclose inp.oper_inc c)

/-- dcf.py line 328: recomputed effective tax rate = tax expense / pretax
income. -/
def calculated_effective_tax_rate_arr (inp : DcfInputs) : Option (List QV) :=
  array_arithmetic (some inp.tax_exp) (some inp.pretax_inc) "divide"

/-- dcf.py line 336: effective-tax-rate reconciliation check, comparing the
reported (scaled) column to the recomputed series. -/
def check_effective_tax_rate_arr (inp : DcfInputs) : Option Bool :=
  (calculated_effective_tax_rate_arr inp).map
    (fun c => np_allclose (effective_tax_rate_arr inp) c)

/-- dcf.py STEP 4: recomputed depreciation = EBITDA - EBITA. -/
def calculated_depreciation_arr (inp : DcfInputs) : Option (List QV) :=
  array_arithmetic (some inp.ebitda) (some inp.ebita) "subtract"

/-- dcf.py STEP 4: depreciation reconciliation check. -/
def check_depreciation_arr (inp : DcfInputs) : Option Bool :=
  (calculated_depreciation_arr inp).map
    (fun c => np_allclose inp.depreciation c)

/-- dcf.py STEP 5: COGS margin = COGS / sales. -/
def cogs_margin_arr (inp : DcfInputs) : Option (List QV) :=
  array_arithmetic (some inp.cogs) (some inp.sales) "divide"

/-- dcf.py STEP 5: other operating income margin. -/
def other_oper_inc_margin_arr (inp : DcfInputs) : Option (List QV) :=
  array_arithmetic (some inp.other_oper_inc) (some inp.sales) "divide"

/-- dcf.py STEP 5: other operating expense margin. -/
def other_oper_exp_margin_arr (inp : DcfInputs) : Option (List QV) :=
  array_arithmetic (some inp.other_oper_exp) (some inp.sales) "divide"

/-- dcf.py STEP 5: SG&A margin. -/
def sga_margin_arr (inp : DcfInputs) : Option (List QV) :=
  array_arithmetic (some inp.sga_exp) (some inp.sales) "divide"

/-- dcf.py STEP 5: R&D margin. -/
def rd_margin_arr (inp : DcfInputs) : Option (List QV) :=
  array_arithmetic (some inp.rd_exp) (some inp.sales) "divide"

/-- dcf.py line 408: capex-to-sales margin, the reported column divided
by 100. -/
def capex_margin_arr (inp : DcfInputs) : List QV :=
  inp.capex_to_sales_raw.map (fun x => x.map (fun v => v / 100))

/-- dcf.py line 417: depreciation-to-capex ratio = reported depreciation /
(capex margin * sales). -/
def depr_capex_arr (inp : DcfInputs) : Option (List QV) :=
  array_arithmetic (some inp.depreciation)
    (array_arithmetic (some (capex_margin_arr inp)) (some inp.sales)
      "multiply") "divide"

/-- dcf.py line 432: amortization margin = amortization / sales. -/
def amortization_margin_arr (inp : DcfInputs) : Option (List QV) :=
  array_arithmetic (amortization_arr inp) (some inp.sales) "divide"

/-- dcf.py line 442: working-capital margin = working capital / sales. -/
def working_capital_margin_arr (inp : DcfInputs) : Option (List QV) :=
  array_arithmetic (working_capital_arr inp) (some inp.sales) "divide"

/-- dcf.py line 458: sales growth extended by the forecast horizon on a
glide from the historical nanmean to the terminal growth rate. -/
def sales_growth_arr_extended (inp : DcfInputs) (p : DcfParams) :
    Option (List QV) :=
  (extend_array (sales_growth_arr inp) (p.n_forecast : ℤ) none none
    (some (nanmean (sales_growth_arr inp)))
    (some (some p.terminal_growth_rate))).toOption

/-- dcf.py line 477: COGS margin extended from its nanmean to
`min(nanmean, terminal COGS margin)`. -/
def cogs_margin_arr_extended (inp : DcfInputs) (p : DcfParams) :
    Option (List QV) :=
  (cogs_margin_arr inp).bind fun m =>
    (extend_array m (p.n_forecast : ℤ) none none
      (some (nanmean m))
      (some (qmin (nanmean m) p.terminal_cogs_margin_rate))).toOption

/-- dcf.py line 498: other-operating-income margin extended from its last
value to zero. -/
def other_oper_inc_margin_arr_extended (inp : DcfInputs) (p : DcfParams) :
    Option (List QV) :=
  (other_oper_inc_margin_arr inp).bind fun m =>
    m.getLast?.bind fun lastv =>
      (extend_array m (p.n_forecast : ℤ) none none
        (some lastv) (some (some 0))).toOption

/-- dcf.py line 519: SG&A margin extended from its last value to
`min(nanmean, terminal SG&A margin)`. -/
def sga_margin_arr_extended (inp : DcfInputs) (p : DcfParams) :
    Option (List QV) :=
  (sga_margin_arr inp).bind fun m =>
    m.getLast?.bind fun lastv =>
      (extend_array m (p.n_forecast : ℤ) none none
        (some lastv)
        (some (qmin (nanmean m) p.terminal_sga_margin_rate))).toOption

/-- dcf.py line 540: R&D margin extended from its last value to
`max(nanmean, terminal R&D margin)`. -/
def rd_margin_arr_extended (inp : DcfInputs) (p : DcfParams) :
    Option (List QV) :=
  (rd_margin_arr inp).bind fun m =>
    m.getLast?.bind fun lastv =>
      (extend_array m (p.n_forecast : ℤ) none none
        (some lastv)
        (some (qmax (nanmean m) p.terminal_rd_margin_rate))).toOption

/-- dcf.py line 561: other-operating-expense margin extended from its last
value to zero. -/
def other_oper_exp_margin_arr_extended (inp : DcfInputs) (p : DcfParams) :
    Option (List QV) :=
  (other_oper_exp_margin_arr inp).bind fun m =>
    m.getLast?.bind fun lastv =>
      (extend_array m (p.n_forecast : ℤ) none none
        (some lastv) (some (some 0))).toOption

/-- dcf.py line 582: the effective-tax-rate driver: the RECOMPUTED series is
extended flat, with both start and end value equal to the last element of
the recomputed series.  The reported column plays no part here. -/
def effective_tax_rate_arr_extended (inp : DcfInputs) (p : DcfParams) :
    Option (List QV) :=
  (calculated_effective_tax_rate_arr inp).bind fun c =>
    c.getLast?.bind fun lastv =>
      (extend_array c (p.n_forecast : ℤ) none none
        (some lastv) (some lastv)).toOption

/-- dcf.py line 603: capex margin extended flat at its nanmean. -/
def capex_margin_arr_extended (inp : DcfInputs) (p : DcfParams) :
    Option (List QV) :=
  (extend_array (capex_margin_arr inp) (p.n_forecast : ℤ) none none
    (some (nanmean (capex_margin_arr inp)))
    (some (nanmean (capex_margin_arr inp)))).toOption

/-- dcf.py line 624: depreciation-to-capex ratio extended from its last
value to the terminal rate. -/
def depr_capex_arr_extended (inp : DcfInputs) (p : DcfParams) :
    Option (List QV) :=
  (depr_capex_arr inp).bind fun d =>
    d.getLast?.bind fun lastv =>
      (extend_array d (p.n_forecast : ℤ) none none
        (some lastv) (some (some p.terminal_depr_to_capex_rate))).toOption

/-- dcf.py line 645: amortization margin extended flat at its nanmean. -/
def amortization_margin_arr_extended (inp : DcfInputs) (p : DcfParams) :
    Option (List QV) :=
  (amortization_margin_arr inp).bind fun m =>
    (extend_array m (p.n_forecast : ℤ) none none
      (some (nanmean m)) (some (nanmean m))).toOption

/-- dcf.py line 666: working-capital margin extended flat at its
nanmean. -/
def working_capital_margin_arr_extended (inp : DcfInputs) (p : DcfParams) :
    Option (List QV) :=
  (working_capital_margin_arr inp).bind fun m =>
    (extend_array m (p.n_forecast : ℤ) none none
      (some (nanmean m)) (some (nanmean m))).toOption

/-- dcf.py line 691: the sales forecast path, compounding from the FIRST
historical sales value through the extended growth sequence with its first
(NaN) entry dropped. -/
def sales_forecast_arr (inp : DcfInputs) (p : DcfParams) :
    Option (List QV) :=
  (sales_growth_arr_extended inp p).bind fun ext =>
    inp.sales.head?.bind fun s0 =>
      apply_growth s0 ext.tail

/-- dcf.py line 706: COGS forecast = sales forecast * extended COGS
margin. -/
def cogs_forecast_arr (inp : DcfInputs) (p : DcfParams) :
    Option (List QV) :=
  array_arithmetic (sales_forecast_arr inp p)
    (cogs_margin_arr_extended inp p) "multiply"

/-- dcf.py line 718: gross profit forecast = sales forecast - COGS
forecast. -/
def gross_profit_forecast_arr (inp : DcfInputs) (p : DcfParams) :
    Option (List QV) :=
  array_arithmetic (sales_forecast_arr inp p)
    (cogs_forecast_arr inp p) "subtract"

/-- dcf.py line 730: other-operating-income forecast. -/
def other_oper_inc_forecast_arr (inp : DcfInputs) (p : DcfParams) :
    Option (List QV) :=
  array_arithmetic (sales_forecast_arr inp p)
    (other_oper_inc_margin_arr_extended inp p) "multiply"

/-- dcf.py line 742: SG&A forecast. -/
def sga_forecast_arr (inp : DcfInputs) (p : DcfParams) :
    Option (List QV) :=
  array_arithmetic (sales_forecast_arr inp p)
    (sga_margin_arr_extended inp p) "multiply"

/-- dcf.py line 754: R&D forecast. -/
def rd_forecast_arr (inp : DcfInputs) (p : DcfParams) :
    Option (List QV) :=
  array_arithmetic (sales_forecast_arr inp p)
    (rd_margin_arr_extended inp p) "multiply"

/-- dcf.py line 766: other-operating-expense forecast. -/
def other_oper_exp_forecast_arr (inp : DcfInputs) (p : DcfParams) :
    Option (List QV) :=
  array_arithmetic (sales_forecast_arr inp p)
    (other_oper_exp_margin_arr_extended inp p) "multiply"

/-- dcf.py line 778: operating-expense forecast = SG&A + R&D + other
operating expense forecasts. -/
def oper_exp_forecast_arr (inp : DcfInputs) (p : DcfParams) :
    Option (List QV) :=
  array_arithmetic
    (array_arithmetic (sga_forecast_arr inp p) (rd_forecast_arr inp p)
      "add")
    (other_oper_exp_forecast_arr inp p) "add"

/-- dcf.py line 796: EBIT forecast = gross profit forecast + (other
operating income forecast - operating expense forecast). -/
def ebit_forecast_arr (inp : DcfInputs) (p : DcfParams) :
    Option (List QV) :=
  array_arithmetic (gross_profit_forecast_arr inp p)
    (array_arithmetic (other_oper_inc_forecast_arr inp p)
      (oper_exp_forecast_arr inp p) "subtract") "add"

/-- dcf.py line 819: NOPAT forecast = EBIT forecast * (1 - extended
effective tax rate); the scalar broadcast `1 - arr` is elementwise. -/
def nopat_forecast_arr (inp : DcfInputs) (p : DcfParams) :
    Option (List QV) :=
  array_arithmetic (ebit_forecast_arr inp p)
    ((effective_tax_rate_arr_extended inp p).map
      (List.map (fun x => qsub (some 1) x))) "multiply"

/-- dcf.py line 837: capex forecast = sales forecast * extended capex
margin. -/
def capex_forecast_arr (inp : DcfInputs) (p : DcfParams) :
    Option (List QV) :=
  array_arithmetic (sales_forecast_arr inp p)
    (capex_margin_arr_extended inp p) "multiply"

/-- dcf.py line 855: depreciation forecast = capex forecast * extended
depreciation-to-capex ratio. -/
def depreciation_forecast_arr (inp : DcfInputs) (p : DcfParams) :
    Option (List QV) :=
  array_arithmetic (capex_forecast_arr inp p)
    (depr_capex_arr_extended inp p) "multiply"

/-- dcf.py line 873: amortization forecast = sales forecast * extended
amortization margin. -/
def amortization_forecast_arr (inp : DcfInputs) (p : DcfParams) :
    Option (List QV) :=
  array_arithmetic (sales_forecast_arr inp p)
    (amortization_margin_arr_extended inp p) "multiply"

/-- dcf.py line 891: working-capital forecast = sales forecast * extended
working-capital margin. -/
def working_capital_forecast_arr (inp : DcfInputs) (p : DcfParams) :
    Option (List QV) :=
  array_arithmetic (sales_forecast_arr inp p)
    (working_capital_margin_arr_extended inp p) "multiply"

/-- dcf.py line 909: change in working capital via delta_numpy with a zero
first value. -/
def change_in_working_capital_forecast_arr (inp : DcfInputs)
    (p : DcfParams) : Option (List QV) :=
  (working_capital_forecast_arr inp p).bind fun w =>
    delta_numpy w (some 0)

/-- dcf.py line 934: free cash flow forecast = NOPAT + (depreciation +
amortization) - capex - change in working capital, over the full
historical-plus-forecast window. -/
def fcf_forecast_arr (inp : DcfInputs) (p : DcfParams) :
    Option (List QV) :=
  array_arithmetic
    (array_arithmetic
      (array_arithmetic (nopat_forecast_arr inp p)
        (array_arithmetic (depreciation_forecast_arr inp p)
          (amortization_forecast_arr inp p) "add") "add")
      (capex_forecast_arr inp p) "subtract")
    (change_in_working_capital_forecast_arr inp p) "subtract"

/-- dcf.py line 964: the slice of the FCF path kept for discounting,
starting at index N_HISTORICAL_YEARS - 1, i.e. at the last historical
(current) year. -/
def fcf_forecast_arr_sliced (inp : DcfInputs) (p : DcfParams) :
    Option (List QV) :=
  (fcf_forecast_arr inp p).map (List.drop (p.n_historical - 1))

/-- dcf.py line 971: `np.full(N_FORECAST_YEARS, WACC)`. -/
def wacc_constant_arr (p : DcfParams) : List QV :=
  List.replicate p.n_forecast (some p.wacc)

/-- dcf.py line 974: the discount-factor path, `apply_growth` from 1.0 with
the constant WACC growth rates. -/
def wacc_arr (p : DcfParams) : Option (List QV) :=
  apply_growth (some 1) (wacc_constant_arr p)

/-- dcf.py line 983: present values of the sliced FCF path, dividing by the
discount-factor path. -/
def pv_forecasted_fcf_arr (inp : DcfInputs) (p : DcfParams) :
    Option (List QV) :=
  array_arithmetic (fcf_forecast_arr_sliced inp p) (wacc_arr p) "divide"

/-- dcf.py line 999: the sum of the present values. -/
def pv_forecasted_fcf_sum (inp : DcfInputs) (p : DcfParams) : Option QV :=
  (pv_forecasted_fcf_arr inp p).map listSum

/-- Concrete input for the end-to-end sales-forecast scenario of the spec:
five years of sales with constant 10 percent growth.  Only the sales column
feeds the sales-forecast path; every other column is empty. -/
def inpC1 : DcfInputs :=
  { sales := [some 100, some 110, some 121, some (1331/10), some (14641/100)]
    cogs := [], gp := [], other_oper_inc := [], other_oper_exp := []
    sga_exp := [], rd_exp := [], oper_exp := [], oper_inc := []
    pretax_inc := [], tax_exp := [], eff_tax_rate_raw := []
    capex_to_sales_raw := [], ebitda := [], ebita := [], depreciation := []
    total_current_assets := [], total_current_liabilities := [] }

/-- Parameters of the end-to-end scenario: horizon 2, terminal growth 3
percent (the other terminal rates and WACC match the source constants). -/
def pC1 : DcfParams :=
  { n_historical := 5, n_forecast := 2
    terminal_growth_rate := 3/100
    terminal_cogs_margin_rate := 6/10
    terminal_sga_margin_rate := 3/10
    terminal_rd_margin_rate := 1/10
    terminal_depr_to_capex_rate := 1
    wacc := 1016/10000 }

/-- A small complete input set (two historical years) on which every
pipeline stage succeeds; used as the concrete witness input for the
dataflow and discounting claims. -/
def inpW : DcfInputs :=
  { sales := [some 100, some 100]
    cogs := [some 50, some 50]
    gp := [some 50, some 50]
    other_oper_inc := [some 0, some 0]
    other_oper_exp := [some 0, some 0]
    sga_exp := [some 10, some 10]
    rd_exp := [some 0, some 0]
    oper_exp := [some 10, some 10]
    oper_inc := [some 40, some 40]
    pretax_inc := [some 40, some 40]
    tax_exp := [some 10, some 10]
    eff_tax_rate_raw := [some 25, some 25]
    capex_to_sales_raw := [some 5, some 5]
    ebitda := [some 45, some 45]
    ebita := [some 40, some 40]
    depreciation := [some 5, some 5]
    total_current_assets := [some 20, some 20]
    total_current_liabilities := [some 10, some 10] }

/-- Parameters accompanying `inpW`: two historical years, a one-year
horizon, and terminal rates under which every glide is flat. -/
def pW : DcfParams :=
  { n_historical := 2, n_forecast := 1
    terminal_growth_rate := 0
    terminal_cogs_margin_rate := 1/2
    terminal_sga_margin_rate := 1/10
    terminal_rd_margin_rate := 0
    terminal_depr_to_capex_rate := 1
    wacc := 1/10 }

/-- A map over `List.range` whose values are all `v` is a replicate. -/
lemma map_range_const {n : ℕ} {f : ℕ → QV} {v : QV}
    (h : ∀ k, k < n → f k = v) :
    (List.range n).map f = List.replicate n v := by
  induction n with
  | zero => simp
  | succ m ih =>
    rw [List.range_succ, List.map_append, ih (fun k hk => h k (by omega))]
    simp [h m (by omega), List.replicate_add]

/-- The glide extension term is constant when start and end coincide. -/
lemma qadd_flat (v : QV) (d : ℚ) (k : ℕ) :
    qadd v (qmul (some ((k : ℚ) + 1)) (qmul (qsub v v) (some d))) = v := by
  cases v with
  | none => rfl
  | some a =>
    simp only [qsub, qmul, qadd]
    norm_num

/-- With both start and end value equal to `v` and a positive horizon,
extend_array appends `n` copies of `v` (the glide is flat). -/
lemma extend_array_flat (arr : List QV) (n : ℕ) (hn : 1 ≤ n) (v : QV) :
    extend_array arr (n : ℤ) none none (some v) (some v)
      = .ok (arr ++ List.replicate n v) := by
  have h0 : ¬ ((n : ℤ) < 0) := by omega
  have h1 : ¬ ((n : ℤ) = 0) := by omega
  simp only [extend_array, ne_eq, not_true_eq_false, false_and, if_false,
    h0, h1, if_neg, Int.toNat_natCast]
  rw [map_range_const (fun k hk => qadd_flat v _ k)]

/-- With no start and end values, no method, and no step, extend_array
appends `n` copies of the last element of the history. -/
lemma extend_array_last (arr : List QV) (n : ℕ) (lastv : QV)
    (h : arr.getLast? = some lastv) :
    extend_array arr (n : ℤ) none none none none
      = .ok (arr ++ List.replicate n lastv) := by
  have h0 : ¬ ((n : ℤ) < 0) := by omega
  simp only [extend_array, ne_eq, not_true_eq_false, false_and, if_false,
    h0, if_neg, Int.toNat_natCast, h]
  have h2 : ¬ ((none : Option String) = some "average") := by simp
  rw [if_neg h2, map_range_const (v := lastv) (fun k hk => by
    cases lastv with
    | none => rfl
    | some a => simp only [qadd, Option.getD]; norm_num)]

/-- The general glide extension: with start S and end E supplied and a
positive horizon n, extend_array appends the n values
`S + (k+1) * (E - S) / n` for k = 0, ..., n-1. -/
lemma extend_array_glide (arr : List QV) (n : ℕ) (hn : 1 ≤ n) (S E : ℚ) :
    extend_array arr (n : ℤ) none none (some (some S)) (some (some E))
      = .ok (arr ++ (List.range n).map
          (fun (k : ℕ) => some (S + ((k : ℚ) + 1) * ((E - S) / (n : ℚ))))) := by
  have h0 : ¬ ((n : ℤ) < 0) := by omega
  have h1 : ¬ ((n : ℤ) = 0) := by omega
  simp only [extend_array, ne_eq, not_true_eq_false, false_and, if_false,
    h0, h1, if_neg, Int.toNat_natCast]
  congr 2
  refine List.map_congr_left (fun k hk => ?_)
  simp only [qsub, qmul, qadd, Option.some.injEq]
  push_cast
  ring

/-- An explicit method "last" with no start and end values and no step also
appends `n` copies of the last element of the history. -/
lemma extend_array_last_method (arr : List QV) (n : ℕ) (lastv : QV)
    (h : arr.getLast? = some lastv) :
    extend_array arr (n : ℤ) (some "last") none none none
      = .ok (arr ++ List.replicate n lastv) := by
  have h0 : ¬ ((n : ℤ) < 0) := by omega
  have hm : ¬ ((some "last" : Option String) ≠ none
      ∧ (some "last" : Option String) ≠ some "average"
      ∧ (some "last" : Option String) ≠ some "last") := by simp
  simp only [extend_array, if_neg hm, if_neg h0, Int.toNat_natCast, h]
  have h2 : ¬ ((some "last" : Option String) = some "average") := by simp
  rw [if_neg h2, map_range_const (v := lastv) (fun k hk => by
    cases lastv with
    | none => rfl
    | some a => simp only [qadd, Option.getD]; norm_num)]

/-- Length of the cumulative-product list. -/
lemma cumprodAux_length (l : List QV) : ∀ acc, (cumprodAux acc l).length = l.length := by
  induction l with
  | nil => intro acc; rfl
  | cons x xs ih => intro acc; simp [cumprodAux, ih]

/-- Entry k of the cumulative product of NaN-free factors `1 + r`. -/
lemma cumprodAux_getElem (rs : List ℚ) : ∀ (c : ℚ) (k : ℕ), k < rs.length →
    (cumprodAux (some c) (rs.map (fun r => some (1 + r))))[k]? =
      some (some (c * ((rs.take (k + 1)).map (fun r => 1 + r)).prod)) := by
  induction rs with
  | nil => intro c k hk; simp at hk
  | cons r tl ih =>
    intro c k hk
    cases k with
    | zero =>
      simp [cumprodAux, qmul]
    | succ m =>
      have hm : m < tl.length := by simpa using hk
      simp only [List.map_cons, cumprodAux, qmul, List.getElem?_cons_succ]
      rw [ih (c * (1 + r)) m hm]
      simp [List.take_succ_cons, mul_assoc]

/-- Cumulative product of a constant list of factors `m`. -/
lemma cumprodAux_replicate (n : ℕ) : ∀ (c m : ℚ),
    cumprodAux (some c) (List.replicate n (some m))
      = (List.range n).map (fun k => some (c * m ^ (k + 1))) := by
  induction n with
  | zero => intro c m; rfl
  | succ t ih =>
    intro c m
    rw [List.replicate_succ]
    simp only [cumprodAux, qmul]
    rw [ih (c * m) m, List.range_succ_eq_map, List.map_cons, List.map_map]
    refine congrArg₂ _ (by norm_num) ?_
    refine List.map_congr_left (fun k hk => ?_)
    simp only [Function.comp_apply, Nat.succ_eq_add_one, Option.some.injEq]
    ring

/-- Explicit form of apply_growth on NaN-free numeric inputs: the initial
value followed by the running compounded products. -/
lemma apply_growth_lift (v0 : ℚ) (rates : List ℚ) (h : rates ≠ []) :
    apply_growth (some v0) (rates.map some)
      = some (some v0 :: (List.range rates.length).map
          (fun k => some (v0 * ((rates.take (k + 1)).map (fun r => 1 + r)).prod))) := by
  have h2 : rates.map some ≠ [] := by simpa using h
  simp only [apply_growth, if_neg h2, np_cumprod, List.map_map]
  have h3 : (fun r => qadd (some 1) r) ∘ (some : ℚ → QV)
      = fun r => some (1 + r) := by
    funext r; rfl
  rw [h3]
  refine congrArg _ (congrArg _ ?_)
  refine List.ext_getElem? (fun n => ?_)
  by_cases hn : n < rates.length
  · rw [List.getElem?_map, cumprodAux_getElem rates 1 n hn,
      List.getElem?_map, List.getElem?_range hn]
    simp [qmul]
  · have e1 : ((cumprodAux (some 1) (rates.map fun r => some (1 + r))).map
        (fun m => qmul (some v0) m))[n]? = none := by
      refine List.getElem?_eq_none ?_
      rw [List.length_map, cumprodAux_length]
      simp only [List.length_map]
      omega
    have e2 : (((List.range rates.length)).map
        (fun k => some (v0 * ((rates.take (k + 1)).map (fun r => 1 + r)).prod)))[n]?
        = (none : Option QV) := by
      refine List.getElem?_eq_none ?_
      simp only [List.length_map, List.length_range]
      omega
    rw [e1, e2]

/-- The discount-factor path is exactly the powers of `1 + WACC` from
exponent 0 through the horizon. -/
lemma wacc_arr_powers (p : DcfParams) (h1 : 1 ≤ p.n_forecast) :
    wacc_arr p
      = some ((List.range (p.n_forecast + 1)).map
          (fun k => some ((1 + p.wacc) ^ k))) := by
  have h2 : List.replicate p.n_forecast (some p.wacc) ≠ [] := by
    simp; omega
  simp only [wacc_arr, apply_growth, np_cumprod,
    wacc_constant_arr, List.map_replicate]
  have h3 : qadd (some 1) (some p.wacc) = some (1 + p.wacc) := rfl
  rw [if_neg h2, h3, cumprodAux_replicate, List.range_succ_eq_map,
    List.map_cons, List.map_map, List.map_map]
  refine congrArg some ?_
  refine congrArg₂ List.cons (by norm_num) ?_
  refine List.map_congr_left (fun k hk => ?_)
  simp only [Function.comp_apply, qmul, Nat.succ_eq_add_one,
    Option.some.injEq]
  ring

/-- With non-null equal-length operands and a recognized operation,
array_arithmetic dispatches to the matching elementwise operation. -/
lemma array_arithmetic_dispatch (a b : List QV) (op : String)
    (h : a.length = b.length) (hop : py_lower op ∈ OP_SET) :
    array_arithmetic (some a) (some b) op
      = some (if py_lower op ∈ ADD_LIST then List.zipWith qadd a b
        else if py_lower op ∈ SUB_LIST then List.zipWith qsub a b
        else if py_lower op ∈ MULT_LIST then List.zipWith qmul a b
        else List.zipWith qdiv a b) := by
  have hne : ¬ (op = "") := by
    intro he
    subst he
    exact absurd hop (by decide)
  simp only [array_arithmetic]
  rw [if_neg hne, if_neg (by simp [h] : ¬ a.length ≠ b.length),
    if_neg (not_not_intro hop)]
  split_ifs with h1 h2 h3 h4
  · rfl
  · rfl
  · rfl
  · rfl
  · exfalso
    simp only [OP_SET, List.mem_append] at hop
    tauto

/-- The "add" operation is elementwise qadd. -/
lemma array_arithmetic_add (a b : List QV) (h : a.length = b.length) :
    array_arithmetic (some a) (some b) "add"
      = some (List.zipWith qadd a b) := by
  rw [array_arithmetic_dispatch a b _ h (by decide), if_pos (by decide)]

/-- The "subtract" operation is elementwise qsub. -/
lemma array_arithmetic_subtract (a b : List QV) (h : a.length = b.length) :
    array_arithmetic (some a) (some b) "subtract"
      = some (List.zipWith qsub a b) := by
  rw [array_arithmetic_dispatch a b _ h (by decide),
    if_neg (by decide), if_pos (by decide)]

/-- The "multiply" operation is elementwise qmul. -/
lemma array_arithmetic_multiply (a b : List QV) (h : a.length = b.length) :
    array_arithmetic (some a) (some b) "multiply"
      = some (List.zipWith qmul a b) := by
  rw [array_arithmetic_dispatch a b _ h (by decide),
    if_neg (by decide), if_neg (by decide), if_pos (by decide)]

/-- The "divide" operation is elementwise qdiv. -/
lemma array_arithmetic_divide (a b : List QV) (h : a.length = b.length) :
    array_arithmetic (some a) (some b) "divide"
      = some (List.zipWith qdiv a b) := by
  rw [array_arithmetic_dispatch a b _ h (by decide),
    if_neg (by decide), if_neg (by decide), if_neg (by decide)]

/-- Zipping lifted NaN-free lists reduces to zipping the underlying
rational lists. -/
lemma zipWith_lift (f : QV → QV → QV) (g : ℚ → ℚ → QV)
    (hfg : ∀ x y, f (some x) (some y) = g x y) :
    ∀ (a b : List ℚ),
      List.zipWith f (a.map some) (b.map some) = List.zipWith g a b := by
  intro a
  induction a with
  | nil => intro b; simp
  | cons x xs ih =>
    intro b
    cases b with
    | nil => simp
    | cons y ys => simp [hfg, ih]

/-- C3: for equal-length numeric arrays, combine with add, subtract and
multiply is exact elementwise arithmetic; combine with divide yields the
NaN sentinel exactly at the zero-denominator positions and the exact
quotient elsewhere, always returning an array (never an exception). -/
theorem c3_elementwise_arithmetic : ∀ (a b : List ℚ), a.length = b.length →
    array_arithmetic (some (a.map some)) (some (b.map some)) "add"
        = some (List.zipWith (fun x y => some (x + y)) a b)
    ∧ array_arithmetic (some (a.map some)) (some (b.map some)) "subtract"
        = some (List.zipWith (fun x y => some (x - y)) a b)
    ∧ array_arithmetic (some (a.map some)) (some (b.map some)) "multiply"
        = some (List.zipWith (fun x y => some (x * y)) a b)
    ∧ array_arithmetic (some (a.map some)) (some (b.map some)) "divide"
        = some (List.zipWith
            (fun x y => if y = 0 then (none : QV) else some (x / y)) a b)
    ∧ (∀ (i : ℕ) (x : ℚ), a[i]? = some x → b[i]? = some 0 →
        (List.zipWith
          (fun x y => if y = 0 then (none : QV) else some (x / y)) a b)[i]?
          = some none) := by
  intro a b h
  have hm : (a.map some).length = (b.map some).length := by simpa using h
  refine ⟨?_, ?_, ?_, ?_, ?_⟩
  · rw [array_arithmetic_add _ _ hm,
      zipWith_lift qadd (fun x y => some (x + y)) (fun x y => rfl)]
  · rw [array_arithmetic_subtract _ _ hm,
      zipWith_lift qsub (fun x y => some (x - y)) (fun x y => rfl)]
  · rw [array_arithmetic_multiply _ _ hm,
      zipWith_lift qmul (fun x y => some (x * y)) (fun x y => rfl)]
  · rw [array_arithmetic_divide _ _ hm,
      zipWith_lift qdiv
        (fun x y => if y = 0 then (none : QV) else some (x / y))
        (fun x y => rfl)]
  · intro i x hx hb
    rw [List.getElem?_zipWith, hx, hb]
    simp

/-- C3 witness: a concrete division with a zero denominator in the second
position. -/
theorem c3_elementwise_arithmetic_witness :
    array_arithmetic (some ([(1 : ℚ), 2].map some))
        (some ([(4 : ℚ), 0].map some)) "divide"
      = some [some (1/4), none] := by
  rw [(c3_elementwise_arithmetic [1, 2] [4, 0] (by decide)).2.2.2.1]
  with_unfolding_all decide

/-- C6: array_arithmetic returns the failure value (None) when an operand
is null, when the shapes differ, or when the lower-cased operation is not
in the synonym table; in every remaining case it returns an array. -/
theorem c6_arith_failure_conditions :
    (∀ (b : Option (List QV)) (op : String),
        array_arithmetic none b op = none)
    ∧ (∀ (a : Option (List QV)) (op : String),
        array_arithmetic a none op = none)
    ∧ (∀ (a b : List QV) (op : String), a.length ≠ b.length →
        array_arithmetic (some a) (some b) op = none)
    ∧ (∀ (a b : List QV) (op : String), py_lower op ∉ OP_SET →
        array_arithmetic (some a) (some b) op = none)
    ∧ (∀ (a b : List QV) (op : String), a.length = b.length →
        py_lower op ∈ OP_SET →
        ∃ r, array_arithmetic (some a) (some b) op = some r) := by
  refine ⟨?_, ?_, ?_, ?_, ?_⟩
  · intro b op; rfl
  · intro a op; cases a <;> rfl
  · intro a b op h
    simp only [array_arithmetic]
    by_cases he : op = ""
    · rw [if_pos he]
    · rw [if_neg he, if_pos h]
  · intro a b op h
    simp only [array_arithmetic]
    by_cases he : op = ""
    · rw [if_pos he]
    · rw [if_neg he]
      by_cases hl : a.length ≠ b.length
      · rw [if_pos hl]
      · rw [if_neg hl, if_pos h]
  · intro a b op h hop
    exact ⟨_, array_arithmetic_dispatch a b op h hop⟩

/-- C6 witness: a mixed-case operation synonym on equal-length operands
returns an array; the same call with mismatched lengths returns None. -/
theorem c6_arith_failure_conditions_witness :
    (∃ r, array_arithmetic (some [none, some 1]) (some [some 2, some 3])
        "PLUS" = some r)
    ∧ array_arithmetic (some [none, some 1]) (some [some 2]) "PLUS"
        = none := by
  constructor
  · exact (c6_arith_failure_conditions).2.2.2.2 [none, some 1]
      [some 2, some 3] "PLUS" (by decide) (by decide)
  · exact (c6_arith_failure_conditions).2.2.1 [none, some 1] [some 2]
      "PLUS" (by decide)

/-- C7: apply_growth on a nonempty numeric growth-rate sequence returns a
sequence of length n+1 whose entry 0 is the initial value and whose entry k
is the initial value compounded through the first k rates; an empty
growth-rate sequence yields the failure value. -/
theorem c7_growth_compounding : ∀ (v0 : ℚ) (rates : List ℚ),
    (rates ≠ [] →
      ∃ l, apply_growth (some v0) (rates.map some) = some l
        ∧ l.length = rates.length + 1
        ∧ l[0]? = some (some v0)
        ∧ ∀ (k : ℕ), k < rates.length →
            l[k + 1]? = some (some
              (v0 * ((rates.take (k + 1)).map (fun r => 1 + r)).prod)))
    ∧ apply_growth (some v0) [] = none := by
  intro v0 rates
  constructor
  · intro h
    refine ⟨_, apply_growth_lift v0 rates h, ?_, by simp, ?_⟩
    · simp
    · intro k hk
      rw [List.getElem?_cons_succ, List.getElem?_map, List.getElem?_range hk]
      rfl
  · rfl

/-- C7 witness: compounding 100 through rates 10 percent then 50 percent. -/
theorem c7_growth_compounding_witness :
    ∃ l, apply_growth (some (100 : ℚ)) ([(1 : ℚ)/10, 1/2].map some) = some l
      ∧ l.length = 3
      ∧ l[0]? = some (some 100)
      ∧ ∀ (k : ℕ), k < 2 →
          l[k + 1]? = some (some
            (100 * (([(1 : ℚ)/10, 1/2].take (k + 1)).map
              (fun r => 1 + r)).prod)) := by
  obtain ⟨l, h1, h2, h3, h4⟩ :=
    (c7_growth_compounding 100 [1/10, 1/2]).1 (by decide)
  exact ⟨l, h1, h2, h3, fun k hk => h4 k (by simpa using hk)⟩

/-- C8: delta_numpy on a nonempty numeric series returns a same-length
series whose entry 0 is the NaN sentinel when no first value is supplied
and exactly 0.0 when any first value is supplied (the supplied value is
never inserted), and whose entry i (i at least 1) is the difference of the
neighbouring inputs; the empty series yields the failure value. -/
theorem c8_first_differences : ∀ (a : List ℚ) (first_value : Option ℚ),
    (a ≠ [] →
      ∃ l, delta_numpy (a.map some) first_value = some l
        ∧ l.length = a.length
        ∧ (first_value = none → l[0]? = some none)
        ∧ (∀ v : ℚ, first_value = some v → l[0]? = some (some 0))
        ∧ (∀ (i : ℕ) (x y : ℚ), 1 ≤ i → a[i]? = some x →
            a[i - 1]? = some y → l[i]? = some (some (x - y))))
    ∧ delta_numpy [] first_value = none := by
  intro a first_value
  constructor
  · intro h
    have hne : a.map some ≠ [] := by simpa using h
    have hd : delta_numpy (a.map some) first_value
        = some ((match first_value with
            | none => (none : QV)
            | some _ => some 0)
          :: List.zipWith qsub (a.map some).tail (a.map some)) := by
      rw [delta_numpy.eq_def, if_neg hne]
    refine ⟨_, hd, ?_, ?_, ?_, ?_⟩
    · have h1 : 1 ≤ a.length := List.length_pos.mpr h
      simp only [List.length_cons, List.length_zipWith, List.length_tail,
        List.length_map]
      omega
    · intro hf
      subst hf
      simp
    · intro v hf
      subst hf
      simp
    · intro i x y h1 hx hy
      obtain ⟨j, rfl⟩ : ∃ j, i = j + 1 := ⟨i - 1, by omega⟩
      rw [List.getElem?_cons_succ, List.getElem?_zipWith,
        List.getElem?_tail, List.getElem?_map, List.getElem?_map]
      rw [show j + 1 - 1 = j by omega] at hy
      rw [hx, hy]
      rfl
  · rfl

/-- C8 witness: differences of the series 3, 5, 4 with and without an
explicit first value (the supplied value 7 is not inserted; position 0 is
exactly 0). -/
theorem c8_first_differences_witness :
    ∃ l, delta_numpy ([(3 : ℚ), 5, 4].map some) (some 7) = some l
      ∧ l.length = 3
      ∧ l[0]? = some (some 0)
      ∧ l[1]? = some (some (5 - 3))
      ∧ l[2]? = some (some (4 - 5)) := by
  obtain ⟨l, h1, h2, _, h3, h4⟩ :=
    (c8_first_differences [3, 5, 4] (some 7)).1 (by decide)
  exact ⟨l, h1, h2, h3 7 rfl,
    h4 1 5 3 (by omega) (by decide) (by decide),
    h4 2 4 5 (by omega) (by decide) (by decide)⟩

/-- C4: with threshold 0.08 the decision is SELL exactly when the per-share
value is below (1 - 0.08) times the price, otherwise BUY exactly when it is
below (1 + 0.08) times the price, otherwise HOLD (each input yields exactly
one of the three), and the boundary value V = (1 - 0.08) * P with positive
price resolves to BUY. -/
theorem c4_trade_decision : ∀ (V P : ℚ),
    (dcf_decision V P (8/100) = Decision.SELL ↔ V < (1 - 8/100) * P)
    ∧ (dcf_decision V P (8/100) = Decision.BUY ↔
        (¬ V < (1 - 8/100) * P ∧ V < (1 + 8/100) * P))
    ∧ (dcf_decision V P (8/100) = Decision.HOLD ↔
        (¬ V < (1 - 8/100) * P ∧ ¬ V < (1 + 8/100) * P))
    ∧ (0 < P → dcf_decision ((1 - 8/100) * P) P (8/100) = Decision.BUY) := by
  intro V P
  refine ⟨?_, ?_, ?_, ?_⟩
  · simp only [dcf_decision, is_sell, is_buy]
    split_ifs with h1 h2 <;> simp_all
  · simp only [dcf_decision, is_sell, is_buy]
    split_ifs with h1 h2 <;> simp_all
  · simp only [dcf_decision, is_sell, is_buy]
    split_ifs with h1 h2 <;> simp_all
  · intro hP
    have h1 : ¬ ((1 - 8/100) * P < (1 - 8/100) * P) := lt_irrefl _
    have h2 : (1 - 8/100) * P < (1 + 8/100) * P := by nlinarith
    simp only [dcf_decision, is_sell, is_buy]
    rw [if_neg (by simp [h1]), if_pos (by simpa using h2)]

/-- C4 witness: the boundary input with price 1 resolves to BUY. -/
theorem c4_trade_decision_witness :
    dcf_decision ((1 - 8/100) * 1) 1 (8/100) = Decision.BUY :=
  (c4_trade_decision ((1 - 8/100) * 1) 1).2.2.2 (by norm_num)

/-- C2 counterexample: in glide mode with horizon 0 the step computation
divides by zero and the call raises (ZeroDivisionError) instead of
returning an extended array or the failure value, refuting the claim for
horizon 0. -/
theorem c2_glide_counterexample :
    extend_array [some 0] (0 : ℤ) none none (some (some 0)) (some (some 1))
      = PyRes.raised := by
  with_unfolding_all decide

/-- C2 (amended to a positive horizon): in glide mode with horizon at least
1, extend_array returns an array of length history + horizon, keeps the
historical prefix unchanged, appends the linear glide values
S + k * (E - S) / horizon for k = 1, ..., horizon, and its final entry is
exactly E. -/
theorem c2_glide_extension (arr : List QV) (n : ℕ) (S E : ℚ)
    (hn : 1 ≤ n) :
    ∃ l, extend_array arr (n : ℤ) none none (some (some S)) (some (some E))
        = .ok l
      ∧ l.length = arr.length + n
      ∧ l.take arr.length = arr
      ∧ (∀ k : ℕ, k < n →
          l[arr.length + k]? = some (some
            (S + ((k : ℚ) + 1) * ((E - S) / (n : ℚ)))))
      ∧ l[arr.length + (n - 1)]? = some (some E) := by
  have hidx : ∀ k : ℕ, k < n →
      (arr ++ (List.range n).map
        (fun (k : ℕ) => some (S + ((k : ℚ) + 1) * ((E - S) / (n : ℚ)))))[arr.length + k]?
      = some (some (S + ((k : ℚ) + 1) * ((E - S) / (n : ℚ)))) := by
    intro k hk
    rw [List.getElem?_append_right (by omega),
      show arr.length + k - arr.length = k by omega,
      List.getElem?_map, List.getElem?_range hk]
    rfl
  refine ⟨_, extend_array_glide arr n hn S E, ?_, ?_, hidx, ?_⟩
  · simp
  · exact List.take_left arr _
  · rw [hidx (n - 1) (by omega)]
    have hq : (n : ℚ) ≠ 0 := Nat.cast_ne_zero.mpr (by omega)
    have hc : (((n - 1 : ℕ) : ℚ) + 1) = (n : ℚ) := by
      push_cast [Nat.cast_sub (by omega : 1 ≤ n)]
      ring
    rw [hc]
    congr 2
    field_simp

/-- C2 witness for the amended claim: history of length 1, horizon 2,
glide from 1 to 5. -/
theorem c2_glide_extension_witness :
    ∃ l, extend_array [some 0] (2 : ℤ) none none (some (some 1))
        (some (some 5)) = .ok l
      ∧ l.length = 3
      ∧ l.take 1 = [some 0]
      ∧ l[1 + 1]? = some (some 5) := by
  obtain ⟨l, h1, h2, h3, h4, h5⟩ :=
    c2_glide_extension [some 0] 2 1 5 (by omega)
  exact ⟨l, h1, h2, h3, h5⟩

/-- C10: with no start and end values, no method, and no step, extend_array
appends horizon copies of the last historical value; an explicit
method "last" gives the same result, so the omitted method behaves as
method "last" and is not a failure. -/
theorem c10_default_extension (arr : List QV) (n : ℕ) (lastv : QV)
    (hl : arr.getLast? = some lastv) :
    extend_array arr (n : ℤ) none none none none
        = .ok (arr ++ List.replicate n lastv)
    ∧ extend_array arr (n : ℤ) (some "last") none none none
        = .ok (arr ++ List.replicate n lastv) :=
  ⟨extend_array_last arr n lastv hl, extend_array_last_method arr n lastv hl⟩

/-- C10 witness: a three-period default extension of a two-value history
repeats the last value. -/
theorem c10_default_extension_witness :
    extend_array [some 2, some 7] ((3 : ℕ) : ℤ) none none none none
      = .ok [some 2, some 7, some 7, some 7, some 7] := by
  rw [(c10_default_extension [some 2, some 7] 3 (some 7) rfl).1]
  with_unfolding_all decide

/-- Evaluation of the sales forecast on the witness data. -/
lemma evalW_sales_forecast :
    sales_forecast_arr inpW pW = some [some 100, some 100, some 100] := by
  with_unfolding_all decide

/-- Evaluation of the extended COGS margin on the witness data. -/
lemma evalW_cogs_margin_ext :
    cogs_margin_arr_extended inpW pW
      = some [some (1/2), some (1/2), some (1/2)] := by
  with_unfolding_all decide

/-- Evaluation of the COGS forecast on the witness data. -/
lemma evalW_cogs_forecast :
    cogs_forecast_arr inpW pW = some [some 50, some 50, some 50] := by
  unfold cogs_forecast_arr
  rw [evalW_sales_forecast, evalW_cogs_margin_ext]
  with_unfolding_all decide

/-- Evaluation of the gross-profit forecast on the witness data. -/
lemma evalW_gp_forecast :
    gross_profit_forecast_arr inpW pW
      = some [some 50, some 50, some 50] := by
  unfold gross_profit_forecast_arr
  rw [evalW_sales_forecast, evalW_cogs_forecast]
  with_unfolding_all decide

/-- Evaluation of the extended other-operating-income margin on the witness
data. -/
lemma evalW_ooi_margin_ext :
    other_oper_inc_margin_arr_extended inpW pW
      = some [some 0, some 0, some 0] := by
  with_unfolding_all decide

/-- Evaluation of the other-operating-income forecast on the witness
data. -/
lemma evalW_ooi_forecast :
    other_oper_inc_forecast_arr inpW pW
      = some [some 0, some 0, some 0] := by
  unfold other_oper_inc_forecast_arr
  rw [evalW_sales_forecast, evalW_ooi_margin_ext]
  with_unfolding_all decide

/-- Evaluation of the extended SG&A margin on the witness data. -/
lemma evalW_sga_margin_ext :
    sga_margin_arr_extended inpW pW
      = some [some (1/10), some (1/10), some (1/10)] := by
  with_unfolding_all decide

/-- Evaluation of the SG&A forecast on the witness data. -/
lemma evalW_sga_forecast :
    sga_forecast_arr inpW pW = some [some 10, some 10, some 10] := by
  unfold sga_forecast_arr
  rw [evalW_sales_forecast, evalW_sga_margin_ext]
  with_unfolding_all decide

/-- Evaluation of the extended R&D margin on the witness data. -/
lemma evalW_rd_margin_ext :
    rd_margin_arr_extended inpW pW = some [some 0, some 0, some 0] := by
  with_unfolding_all decide

/-- Evaluation of the R&D forecast on the witness data. -/
lemma evalW_rd_forecast :
    rd_forecast_arr inpW pW = some [some 0, some 0, some 0] := by
  unfold rd_forecast_arr
  rw [evalW_sales_forecast, evalW_rd_margin_ext]
  with_unfolding_all decide

/-- Evaluation of the extended other-operating-expense margin on the
witness data. -/
lemma evalW_ooe_margin_ext :
    other_oper_exp_margin_arr_extended inpW pW
      = some [some 0, some 0, some 0] := by
  with_unfolding_all decide

/-- Evaluation of the other-operating-expense forecast on the witness
data. -/
lemma evalW_ooe_forecast :
    other_oper_exp_forecast_arr inpW pW
      = some [some 0, some 0, some 0] := by
  unfold other_oper_exp_forecast_arr
  rw [evalW_sales_forecast, evalW_ooe_margin_ext]
  with_unfolding_all decide

/-- Evaluation of the operating-expense forecast on the witness data. -/
lemma evalW_operexp_forecast :
    oper_exp_forecast_arr inpW pW = some [some 10, some 10, some 10] := by
  unfold oper_exp_forecast_arr
  rw [evalW_sga_forecast, evalW_rd_forecast, evalW_ooe_forecast]
  with_unfolding_all decide

/-- Evaluation of the EBIT forecast on the witness data. -/
lemma evalW_ebit_forecast :
    ebit_forecast_arr inpW pW = some [some 40, some 40, some 40] := by
  unfold ebit_forecast_arr
  rw [evalW_gp_forecast, evalW_ooi_forecast, evalW_operexp_forecast]
  with_unfolding_all decide

/-- Evaluation of the extended effective-tax-rate driver on the witness
data. -/
lemma evalW_etr_ext :
    effective_tax_rate_arr_extended inpW pW
      = some [some (1/4), some (1/4), some (1/4)] := by
  with_unfolding_all decide

/-- Evaluation of the NOPAT forecast on the witness data. -/
lemma evalW_nopat_forecast :
    nopat_forecast_arr inpW pW = some [some 30, some 30, some 30] := by
  unfold nopat_forecast_arr
  rw [evalW_ebit_forecast, evalW_etr_ext]
  with_unfolding_all decide

/-- Evaluation of the extended capex margin on the witness data. -/
lemma evalW_capex_margin_ext :
    capex_margin_arr_extended inpW pW
      = some [some (1/20), some (1/20), some (1/20)] := by
  with_unfolding_all decide

/-- Evaluation of the capex forecast on the witness data. -/
lemma evalW_capex_forecast :
    capex_forecast_arr inpW pW = some [some 5, some 5, some 5] := by
  unfold capex_forecast_arr
  rw [evalW_sales_forecast, evalW_capex_margin_ext]
  with_unfolding_all decide

/-- Evaluation of the extended depreciation-to-capex ratio on the witness
data. -/
lemma evalW_depr_capex_ext :
    depr_capex_arr_extended inpW pW = some [some 1, some 1, some 1] := by
  with_unfolding_all decide

/-- Evaluation of the depreciation forecast on the witness data. -/
lemma evalW_depr_forecast :
    depreciation_forecast_arr inpW pW = some [some 5, some 5, some 5] := by
  unfold depreciation_forecast_arr
  rw [evalW_capex_forecast, evalW_depr_capex_ext]
  with_unfolding_all decide

/-- Evaluation of the extended amortization margin on the witness data. -/
lemma evalW_amort_margin_ext :
    amortization_margin_arr_extended inpW pW
      = some [some 0, some 0, some 0] := by
  with_unfolding_all decide

/-- Evaluation of the amortization forecast on the witness data. -/
lemma evalW_amort_forecast :
    amortization_forecast_arr inpW pW = some [some 0, some 0, some 0] := by
  unfold amortization_forecast_arr
  rw [evalW_sales_forecast, evalW_amort_margin_ext]
  with_unfolding_all decide

/-- Evaluation of the extended working-capital margin on the witness
data. -/
lemma evalW_wc_margin_ext :
    working_capital_margin_arr_extended inpW pW
      = some [some (1/10), some (1/10), some (1/10)] := by
  with_unfolding_all decide

/-- Evaluation of the working-capital forecast on the witness data. -/
lemma evalW_wc_forecast :
    working_capital_forecast_arr inpW pW
      = some [some 10, some 10, some 10] := by
  unfold working_capital_forecast_arr
  rw [evalW_sales_forecast, evalW_wc_margin_ext]
  with_unfolding_all decide

/-- Evaluation of the change in working capital on the witness data. -/
lemma evalW_dwc_forecast :
    change_in_working_capital_forecast_arr inpW pW
      = some [some 0, some 0, some 0] := by
  unfold change_in_working_capital_forecast_arr
  rw [evalW_wc_forecast]
  with_unfolding_all decide

/-- Evaluation of the free-cash-flow forecast on the witness data. -/
lemma evalW_fcf_forecast :
    fcf_forecast_arr inpW pW = some [some 30, some 30, some 30] := by
  unfold fcf_forecast_arr
  rw [evalW_nopat_forecast, evalW_depr_forecast, evalW_amort_forecast,
    evalW_capex_forecast, evalW_dwc_forecast]
  with_unfolding_all decide

/-- The sales forecast never reads the reported operating-income column. -/
lemma sales_forecast_ignores_oper_inc (inp : DcfInputs) (p : DcfParams)
    (v : List QV) :
    sales_forecast_arr { inp with oper_inc := v } p
      = sales_forecast_arr inp p := rfl

/-- The NOPAT forecast never reads the reported operating-income column. -/
lemma nopat_ignores_oper_inc (inp : DcfInputs) (p : DcfParams)
    (v : List QV) :
    nopat_forecast_arr { inp with oper_inc := v } p
      = nopat_forecast_arr inp p := rfl

/-- The depreciation forecast never reads the reported operating-income
column. -/
lemma depr_forecast_ignores_oper_inc (inp : DcfInputs) (p : DcfParams)
    (v : List QV) :
    depreciation_forecast_arr { inp with oper_inc := v } p
      = depreciation_forecast_arr inp p := rfl

/-- The capex forecast never reads the reported operating-income column. -/
lemma capex_forecast_ignores_oper_inc (inp : DcfInputs) (p : DcfParams)
    (v : List QV) :
    capex_forecast_arr { inp with oper_inc := v } p
      = capex_forecast_arr inp p := rfl

/-- The working-capital delta never reads the reported operating-income
column. -/
lemma dwc_ignores_oper_inc (inp : DcfInputs) (p : DcfParams)
    (v : List QV) :
    change_in_working_capital_forecast_arr { inp with oper_inc := v } p
      = change_in_working_capital_forecast_arr inp p := rfl

/-- Evaluation of the extended amortization margin when the reported
operating income is lowered to 30: amortization becomes EBITA - 30 = 10,
one tenth of sales. -/
lemma evalOI_amort_margin_ext :
    amortization_margin_arr_extended
        { inpW with oper_inc := [some 30, some 30] } pW
      = some [some (1/10), some (1/10), some (1/10)] := by
  with_unfolding_all decide

/-- Evaluation of the amortization forecast on the modified
operating-income input. -/
lemma evalOI_amort_forecast :
    amortization_forecast_arr { inpW with oper_inc := [some 30, some 30] }
        pW = some [some 10, some 10, some 10] := by
  unfold amortization_forecast_arr
  rw [sales_forecast_ignores_oper_inc, evalW_sales_forecast,
    evalOI_amort_margin_ext]
  with_unfolding_all decide

/-- Evaluation of the free cash flow on the modified operating-income
input: the reported column flows through amortization into FCF. -/
lemma evalOI_fcf_forecast :
    fcf_forecast_arr { inpW with oper_inc := [some 30, some 30] } pW
      = some [some 40, some 40, some 40] := by
  unfold fcf_forecast_arr
  rw [nopat_ignores_oper_inc, evalW_nopat_forecast,
    depr_forecast_ignores_oper_inc, evalW_depr_forecast,
    evalOI_amort_forecast,
    capex_forecast_ignores_oper_inc, evalW_capex_forecast,
    dwc_ignores_oper_inc, evalW_dwc_forecast]
  with_unfolding_all decide

/-- The NOPAT forecast never reads the reported depreciation column. -/
lemma nopat_ignores_depreciation (inp : DcfInputs) (p : DcfParams)
    (v : List QV) :
    nopat_forecast_arr { inp with depreciation := v } p
      = nopat_forecast_arr inp p := rfl

/-- The amortization forecast never reads the reported depreciation
column. -/
lemma amort_forecast_ignores_depreciation (inp : DcfInputs) (p : DcfParams)
    (v : List QV) :
    amortization_forecast_arr { inp with depreciation := v } p
      = amortization_forecast_arr inp p := rfl

/-- The capex forecast never reads the reported depreciation column. -/
lemma capex_forecast_ignores_depreciation (inp : DcfInputs) (p : DcfParams)
    (v : List QV) :
    capex_forecast_arr { inp with depreciation := v } p
      = capex_forecast_arr inp p := rfl

/-- The working-capital delta never reads the reported depreciation
column. -/
lemma dwc_ignores_depreciation (inp : DcfInputs) (p : DcfParams)
    (v : List QV) :
    change_in_working_capital_forecast_arr { inp with depreciation := v } p
      = change_in_working_capital_forecast_arr inp p := rfl

/-- Evaluation of the extended depreciation-to-capex ratio when the
reported depreciation is doubled to 10: the ratio history becomes 2 and
glides to the terminal rate 1 over the one-year horizon. -/
lemma evalDEP_depr_capex_ext :
    depr_capex_arr_extended { inpW with depreciation := [some 10, some 10] }
        pW = some [some 2, some 2, some 1] := by
  with_unfolding_all decide

/-- Evaluation of the depreciation forecast on the modified depreciation
input. -/
lemma evalDEP_depr_forecast :
    depreciation_forecast_arr
        { inpW with depreciation := [some 10, some 10] } pW
      = some [some 10, some 10, some 5] := by
  unfold depreciation_forecast_arr
  rw [capex_forecast_ignores_depreciation, evalW_capex_forecast,
    evalDEP_depr_capex_ext]
  with_unfolding_all decide

/-- Evaluation of the free cash flow on the modified depreciation input:
the reported column flows through the depreciation ratio into FCF. -/
lemma evalDEP_fcf_forecast :
    fcf_forecast_arr { inpW with depreciation := [some 10, some 10] } pW
      = some [some 35, some 35, some 30] := by
  unfold fcf_forecast_arr
  rw [nopat_ignores_depreciation, evalW_nopat_forecast,
    evalDEP_depr_forecast,
    amort_forecast_ignores_depreciation, evalW_amort_forecast,
    capex_forecast_ignores_depreciation, evalW_capex_forecast,
    dwc_ignores_depreciation, evalW_dwc_forecast]
  with_unfolding_all decide

/-- The effective-tax-rate reconciliation check passes on the witness data
(the reported 25 percent column matches tax expense over pretax income). -/
lemma evalW_etr_check :
    check_effective_tax_rate_arr inpW = some true := by
  with_unfolding_all decide

/-- The effective-tax-rate reconciliation check fails when the reported
column is changed to 50 percent, although the projection is unchanged. -/
lemma evalETR_etr_check :
    check_effective_tax_rate_arr
        { inpW with eff_tax_rate_raw := [some 50, some 50] }
      = some false := by
  with_unfolding_all decide

/-- The operating-income reconciliation check fails on the modified
operating-income input (recomputed operating income stays 40). -/
lemma evalOI_operinc_check :
    check_oper_inc_arr { inpW with oper_inc := [some 30, some 30] }
      = some false := by
  with_unfolding_all decide

/-- The depreciation reconciliation check fails on the modified
depreciation input (recomputed depreciation stays 5). -/
lemma evalDEP_depr_check :
    check_depreciation_arr
        { inpW with depreciation := [some 10, some 10] }
      = some false := by
  with_unfolding_all decide

/-- Division by an exact discount factor of one is the identity. -/
lemma qdiv_one (x : QV) : qdiv x (some 1) = x := by
  cases x <;> simp [qdiv]

/-- Evaluation of the extended sales-growth driver on the end-to-end
scenario: four historical 10 percent growth rates (the first period is
undefined), then the glide values 6.5 percent and 3 percent. -/
lemma evalC1_growth_ext :
    sales_growth_arr_extended inpC1 pC1
      = some [none, some (1/10), some (1/10), some (1/10), some (1/10),
        some (13/200), some (3/100)] := by
  with_unfolding_all decide

/-- C1: on the 5-year sales history with constant 10 percent growth,
terminal growth 3 percent and horizon 2, the pipeline (pct-change growth,
nanmean, glide extension, compounding from the first historical value)
reproduces the historical actuals through 146.41 and then applies the glide
values g1 = 0.1 + (0.03 - 0.1)/2 and g2 = 0.03, so the two forecast-year
values are 146.41 * (1 + g1) and 146.41 * (1 + g1) * (1 + g2). -/
theorem c1_sales_forecast_end_to_end :
    sales_forecast_arr inpC1 pC1
      = some [some 100, some 110, some 121, some (1331/10),
        some (14641/100),
        some (14641/100 * (1 + (1/10 + (3/100 - 1/10)/2))),
        some (14641/100 * (1 + (1/10 + (3/100 - 1/10)/2)) * (1 + 3/100))] := by
  unfold sales_forecast_arr
  rw [evalC1_growth_ext, Option.some_bind]
  norm_num [inpC1, apply_growth, np_cumprod, cumprodAux, qadd, qmul]
  intro h
  simp at h

/-- C5: the effective-tax-rate driver is built entirely from the recomputed
series tax expense / pretax income: (a) changing the reported EFF_TAX_RATE
column changes neither the extended tax-rate driver nor the NOPAT or FCF
forecasts, (b) the extended driver is exactly the recomputed series
followed by horizon copies of its last element, (c) the reported column
does reach the reconciliation check, and (d, e) by contrast the reported
operating-income and depreciation columns flow into the FCF forecast even
when their reconciliation checks fail. -/
theorem c5_effective_tax_rate_asymmetry :
    (∀ (inp : DcfInputs) (p : DcfParams) (r : List QV),
        effective_tax_rate_arr_extended { inp with eff_tax_rate_raw := r } p
          = effective_tax_rate_arr_extended inp p
        ∧ nopat_forecast_arr { inp with eff_tax_rate_raw := r } p
          = nopat_forecast_arr inp p
        ∧ fcf_forecast_arr { inp with eff_tax_rate_raw := r } p
          = fcf_forecast_arr inp p)
    ∧ (∀ (inp : DcfInputs) (p : DcfParams) (c : List QV) (lastv : QV),
        1 ≤ p.n_forecast →
        calculated_effective_tax_rate_arr inp = some c →
        c.getLast? = some lastv →
        effective_tax_rate_arr_extended inp p
          = some (c ++ List.replicate p.n_forecast lastv))
    ∧ check_effective_tax_rate_arr
          { inpW with eff_tax_rate_raw := [some 50, some 50] }
        ≠ check_effective_tax_rate_arr inpW
    ∧ (check_oper_inc_arr { inpW with oper_inc := [some 30, some 30] }
          = some false
        ∧ fcf_forecast_arr { inpW with oper_inc := [some 30, some 30] } pW
          ≠ fcf_forecast_arr inpW pW)
    ∧ (check_depreciation_arr
          { inpW with depreciation := [some 10, some 10] } = some false
        ∧ fcf_forecast_arr { inpW with depreciation := [some 10, some 10] }
          pW ≠ fcf_forecast_arr inpW pW) := by
  refine ⟨?_, ?_, ?_, ⟨evalOI_operinc_check, ?_⟩,
    ⟨evalDEP_depr_check, ?_⟩⟩
  · intro inp p r
    exact ⟨rfl, rfl, rfl⟩
  · intro inp p c lastv h1 hc hl
    unfold effective_tax_rate_arr_extended
    rw [hc, Option.some_bind, hl, Option.some_bind,
      extend_array_flat c p.n_forecast h1 lastv]
    rfl
  · rw [evalETR_etr_check, evalW_etr_check]
    simp
  · rw [evalOI_fcf_forecast, evalW_fcf_forecast]
    with_unfolding_all decide
  · rw [evalDEP_fcf_forecast, evalW_fcf_forecast]
    with_unfolding_all decide

/-- C5 witness: on the witness data the recomputed tax-rate series is
[1/4, 1/4] and the extended driver is that series with one flat copy of its
last element appended. -/
theorem c5_effective_tax_rate_asymmetry_witness :
    effective_tax_rate_arr_extended inpW pW
      = some ([some (1/4), some (1/4)]
          ++ List.replicate pW.n_forecast (some (1/4))) :=
  c5_effective_tax_rate_asymmetry.2.1 inpW pW [some (1/4), some (1/4)]
    (some (1/4)) (by norm_num [pW]) (by with_unfolding_all decide)
    (by with_unfolding_all decide)

/-- C9: the discount-factor path is the powers (1 + WACC)^0, ...,
(1 + WACC)^horizon with first entry exactly 1; the FCF slice kept for
discounting starts at the last historical year and has horizon + 1
entries; the first present value equals the current-year FCF (divided by
exactly 1, hence undiscounted); and the present-value sum runs over
horizon + 1 periods. -/
theorem c9_undiscounted_current_fcf (inp : DcfInputs) (p : DcfParams)
    (f : List QV) (h1 : 1 ≤ p.n_forecast) (h2 : 1 ≤ p.n_historical)
    (hf : fcf_forecast_arr inp p = some f)
    (hlen : f.length = p.n_historical + p.n_forecast) :
    ∃ W pv, wacc_arr p = some W
      ∧ W.length = p.n_forecast + 1
      ∧ W[0]? = some (some 1)
      ∧ (∀ k : ℕ, k ≤ p.n_forecast →
          W[k]? = some (some ((1 + p.wacc) ^ k)))
      ∧ fcf_forecast_arr_sliced inp p
          = some (f.drop (p.n_historical - 1))
      ∧ (f.drop (p.n_historical - 1)).length = p.n_forecast + 1
      ∧ pv_forecasted_fcf_arr inp p = some pv
      ∧ pv.length = p.n_forecast + 1
      ∧ pv[0]? = f[p.n_historical - 1]?
      ∧ pv_forecasted_fcf_sum inp p = some (listSum pv) := by
  have hW := wacc_arr_powers p h1
  have hWlen : ((List.range (p.n_forecast + 1)).map
      (fun k => some ((1 + p.wacc) ^ k))).length = p.n_forecast + 1 := by
    simp
  have hsl : fcf_forecast_arr_sliced inp p
      = some (f.drop (p.n_historical - 1)) := by
    unfold fcf_forecast_arr_sliced
    rw [hf]
    rfl
  have hdlen : (f.drop (p.n_historical - 1)).length = p.n_forecast + 1 := by
    rw [List.length_drop, hlen]
    omega
  have hpv : pv_forecasted_fcf_arr inp p
      = some (List.zipWith qdiv (f.drop (p.n_historical - 1))
          ((List.range (p.n_forecast + 1)).map
            (fun k => some ((1 + p.wacc) ^ k)))) := by
    unfold pv_forecasted_fcf_arr
    rw [hsl, hW, array_arithmetic_divide _ _ (by rw [hdlen, hWlen])]
  obtain ⟨x, hx⟩ : ∃ x, f[p.n_historical - 1]? = some x :=
    ⟨f.get ⟨p.n_historical - 1, by omega⟩,
      List.getElem?_eq_getElem (by omega)⟩
  refine ⟨_, _, hW, hWlen, ?_, ?_, hsl, hdlen, hpv, ?_, ?_, ?_⟩
  · rw [List.getElem?_map, List.getElem?_range (by omega)]
    simp
  · intro k hk
    rw [List.getElem?_map, List.getElem?_range (by omega)]
    rfl
  · rw [List.length_zipWith, hdlen, hWlen]
    simp
  · rw [List.getElem?_zipWith]
    have hd0 : (f.drop (p.n_historical - 1))[0]? = f[p.n_historical - 1]? := by
      rw [List.getElem?_drop]
      simp
    rw [hd0, hx, List.getElem?_map, List.getElem?_range (by omega)]
    simp [qdiv_one]
  · unfold pv_forecasted_fcf_sum
    rw [hpv]
    rfl

/-- C9 witness: the undiscounted current-year cash flow on the witness
data, whose FCF path is [30, 30, 30] over two historical years and a
one-year horizon. -/
theorem c9_undiscounted_current_fcf_witness :
    ∃ W pv, wacc_arr pW = some W
      ∧ W.length = pW.n_forecast + 1
      ∧ W[0]? = some (some 1)
      ∧ (∀ k : ℕ, k ≤ pW.n_forecast →
          W[k]? = some (some ((1 + pW.wacc) ^ k)))
      ∧ fcf_forecast_arr_sliced inpW pW
          = some (([some 30, some 30, some 30] : List QV).drop
              (pW.n_historical - 1))
      ∧ (([some 30, some 30, some 30] : List QV).drop
          (pW.n_historical - 1)).length = pW.n_forecast + 1
      ∧ pv_forecasted_fcf_arr inpW pW = some pv
      ∧ pv.length = pW.n_forecast + 1
      ∧ pv[0]? = ([some 30, some 30, some 30] : List QV)[pW.n_historical - 1]?
      ∧ pv_forecasted_fcf_sum inpW pW = some (listSum pv) :=
  c9_undiscounted_current_fcf inpW pW [some 30, some 30, some 30]
    (by norm_num [pW]) (by norm_num [pW]) evalW_fcf_forecast
    (by norm_num [pW])
